import Mathlib

set_option linter.unusedVariables false

/-!
Verification of the distribution transfer protocol of the binstar client
(`binstar_client/__init__.py`): the three-phase upload (stage → store →
commit), the conditional download flow, and the shared response checker.
The HTTP layer is embedded shallowly: a response is a record, the network
is given as explicit response arguments, and each run returns the trace of
requests it issued together with the warnings emitted and its result.
-/

/-- JSON values, as returned by the `json()` method of a response. -/
inductive JVal where
  | null : JVal
  | bool : Bool → JVal
  | num : Int → JVal
  | str : String → JVal
  | arr : List JVal → JVal
  | obj : List (String × JVal) → JVal

/-- An HTTP response as the client observes it: status code, headers,
the result of attempting to parse the body as JSON (`none` when parsing
raises), and the raw text. -/
structure HttpResponse where
  status_code : Nat
  headers : List (String × String)
  body : Option JVal
  text : String

/-- The errors the client can raise.  `unauthorized`, `notFound`,
`conflict` and `binstarError` are the typed classes of the errors module;
`typeError`, `nameError`, `keyError`, `valueError` and `attributeError`
model the corresponding Python built-in exceptions escaping the client;
`unsupportedStream` models a seek on a stream that does not support
random access (spec section 7). -/
inductive BErr where
  | unauthorized : JVal → Nat → BErr
  | notFound : JVal → Nat → BErr
  | conflict : JVal → Nat → BErr
  | binstarError : JVal → Nat → BErr
  | typeError : String → BErr
  | nameError : String → BErr
  | keyError : String → BErr
  | valueError : String → BErr
  | attributeError : String → BErr
  | unsupportedStream : BErr

/-- A readable byte stream (Python file-like object): content, current
read position, and whether it supports random access (seek/tell). -/
structure ByteStream where
  content : List Nat
  pos : Nat
  seekable : Bool
deriving DecidableEq

/-- One part of a multipart/form-data body: a text part (a form field) or
a file part. -/
inductive FormPart where
  | text : String → JVal → FormPart
  | file : String → String → List Nat → FormPart

/-- The observable actions of a run: requests issued and stream
operations performed, in order. -/
inductive Event where
  | stagePost : String → List (String × String) → JVal → Event
  | streamRead : Nat → Event
  | seekEnd : Event
  | seekTo : Nat → Event
  | storePost : JVal → List (String × String) → List FormPart → Event
  | commitPost : String → List (String × String) → JVal → Event
  | primaryGet : String → List (String × String) → Bool → Event
  | redirectGet : String → List (String × String) → Event

/-- The client object (`Binstar.__init__`, lines 31-38): the session is
modelled by the headers it attaches to every request it sends. -/
structure Binstar where
  token : Option String
  domain : String

def __version__ : String := "0.4.2"

/-- The default headers of `self.session` (lines 32-36): the api-version
header plus, when a token is present, the Authorization header. -/
def session_headers (c : Binstar) : List (String × String) :=
  ("x-binstar-api-version", __version__) ::
    (match c.token with
     | some t => [("Authorization", "token " ++ t)]
     | none => [])

/-- `res.headers.get(key, default)`. -/
def headerGet (hs : List (String × String)) (k d : String) : String :=
  match hs.lookup k with
  | some v => v
  | none => d

/-- Modelled from the spec: `pv` (binstar_client.utils, not under src/)
parses a dotted version string into numeric components to be compared;
per spec section 7 the comparison never raises, so it is total. -/
def pv (s : String) : List Nat :=
  (s.splitOn ".").map (fun c => c.toNat?.getD 0)

/-- Lexicographic comparison of version component lists, as Python
compares tuples. -/
def verLt : List Nat → List Nat → Bool
  | [], [] => false
  | [], _ :: _ => true
  | _ :: _, [] => false
  | a :: as, b :: bs => if a < b then true else if b < a then false else verLt as bs

/-- The version-skew warning text (lines 113-114). -/
def warn_msg (api_version : String) : String :=
  "The api server is running the binstar-api version " ++ api_version ++
    ". you are using " ++ __version__ ++
    "\nPlease update your client with pip install -U binstar or conda update binstar"

/-- The fallback message built from the STATUS_CODES table (lines
120-121); the table itself lives in binstar_client.utils.http_codes (not
under src/) and is therefore passed in as a parameter. -/
def table_msg (table : Nat → Option (String × String)) (code : Nat) : String :=
  let p := (table code).getD ("?", "Undefined error")
  p.1 ++ ": " ++ p.2 ++ " (status code: " ++ toString code ++ ")"

/-- The error-class selection of `_check_response` (lines 129-136): the
class depends only on the status code. -/
def mk_err (code : Nat) (msg : JVal) : BErr :=
  if code = 401 then .unauthorized msg code
  else if code = 404 then .notFound msg code
  else if code = 409 then .conflict msg code
  else .binstarError msg code

/-- Lines 120-127 of `_check_response`: the message is the error field of
the body when the body is a JSON object containing one, the table
fallback when the body is not JSON or lacks an error field; a body that
parses to non-object JSON makes `data.get` raise AttributeError, since
the `try` block covers only `res.json()`. -/
def classify_body (table : Nat → Option (String × String)) (code : Nat)
    (body : Option JVal) : BErr :=
  match body with
  | none => mk_err code (JVal.str (table_msg table code))
  | some (JVal.obj kvs) =>
      match kvs.lookup "error" with
      | some v => mk_err code v
      | none => mk_err code (JVal.str (table_msg table code))
  | some _ => BErr.attributeError "response JSON has no attribute get"

/-- `Binstar._check_response` (lines 110-136): emits the version-skew
warning, then checks the status code against the allowed list; returns
the warnings together with either success or the raised error. -/
def check_response (table : Nat → Option (String × String)) (allowed : List Nat)
    (res : HttpResponse) : List String × Except BErr Unit :=
  let api_version := headerGet res.headers "x-binstar-api-version" "0.2.1"
  let warns := if verLt (pv __version__) (pv api_version) then [warn_msg api_version]
    else []
  if allowed.contains res.status_code then (warns, Except.ok ())
  else (warns, Except.error (classify_body table res.status_code res.body))

def JVal.isObj : JVal → Bool
  | .obj _ => true
  | _ => false

/-- `obj[key]` on a parsed JSON object; `none` when the key is missing
(Python raises KeyError there). -/
def jGet (kvs : List (String × JVal)) (k : String) : Option JVal := kvs.lookup k

/-- Python dict assignment `d[k] = v`: replaces the value in place when
the key exists, appends otherwise (insertion order preserved). -/
def jSetKey (kvs : List (String × JVal)) (k : String) (v : JVal) :
    List (String × JVal) :=
  if kvs.any (fun kv => kv.1 == k) then
    kvs.map (fun kv => if kv.1 == k then (k, v) else kv)
  else kvs ++ [(k, v)]

/-- The incremental digest algorithm, abstract over the byte sequence:
hex and base64 renderings of the content digest. -/
structure Hasher where
  hex : List Nat → String
  b64 : List Nat → String

structure HashResult where
  hexmd5 : String
  b64md5 : String
  size : Nat
  fdAfter : ByteStream

/-- Modelled from the spec: `compute_hash` (binstar_client.utils, not
under src/) reads the stream from the current position to exhaustion in
chunks, feeding an incremental digest; the returned size is the declared
size when one was supplied, otherwise the number of bytes read; the read
position is advanced (spec section 4.1). -/
def compute_hash (H : Hasher) (fd : ByteStream) (size : Option Nat) : HashResult :=
  { hexmd5 := H.hex (fd.content.drop fd.pos)
    b64md5 := H.b64 (fd.content.drop fd.pos)
    size := size.getD (fd.content.drop fd.pos).length
    fdAfter := { fd with pos := fd.content.length } }

/-- `fd.seek(0, os.SEEK_END)`; a stream without random access raises,
which the spec maps to the UnsupportedStream failure (spec sections 7
and 9). -/
def ByteStream.seek_end (fd : ByteStream) : Except BErr ByteStream :=
  if fd.seekable then .ok { fd with pos := fd.content.length }
  else .error .unsupportedStream

/-- `fd.seek(p)` under the same convention. -/
def ByteStream.seek_to (fd : ByteStream) (p : Nat) : Except BErr ByteStream :=
  if fd.seekable then .ok { fd with pos := p } else .error .unsupportedStream

/-- Lines 385-391 of `Binstar.upload`: when no digest was supplied the
hasher runs on the stream; when a digest was supplied but no size, the
size is derived via tell, seek-to-end, delta, seek-back; when both were
supplied nothing touches the stream.  The local `b64md5` of the source
is assigned only in the first branch, modelled by the `Option String`
component (`none` = never assigned). -/
def digest_step (H : Hasher) (md5 : Option String) (size : Option Nat)
    (fd : ByteStream) :
    Except BErr (List Event × Option String × Nat × ByteStream) :=
  match md5 with
  | none =>
      let r := compute_hash H fd size
      .ok ([Event.streamRead (fd.content.drop fd.pos).length], some r.b64md5,
        r.size, r.fdAfter)
  | some _ =>
      match size with
      | some n => .ok ([], none, n, fd)
      | none =>
          match fd.seek_end with
          | .error e => .error e
          | .ok fd1 =>
              match fd1.seek_to fd.pos with
              | .error e => .error e
              | .ok fd2 =>
                  .ok ([Event.seekEnd, Event.seekTo fd.pos], none,
                    fd1.pos - fd.pos, fd2)

/-- Modelled from the spec: `stream_multipart`
(binstar_client.requests_ext, not under src/) lazily encodes the fields
as text parts in order followed by one file part per file entry (field
name, filename, remaining stream content), and returns the body parts
together with the multipart content-type header carrying the boundary
(spec section 4.2). -/
def stream_multipart (boundary : String) (fields : List (String × JVal))
    (files : List (String × String × ByteStream)) :
    List FormPart × List (String × String) :=
  (fields.map (fun kv => FormPart.text kv.1 kv.2) ++
     files.map (fun nf => FormPart.file nf.1 nf.2.1 (nf.2.2.content.drop nf.2.2.pos)),
   [("Content-Type", "multipart/form-data; boundary=" ++ boundary)])

/-- Lines 393-399 of `Binstar.upload`: the store request — the staging
grant form fields with Content-Length and Content-MD5 added, encoded as
multipart together with the file part, POSTed to the storage url by the
bare requests module (not by the session). -/
def store_request (boundary : String) (s3url : JVal)
    (s3data : List (String × JVal)) (basename : String) (fd : ByteStream)
    (size : Nat) (b64md5 : String) : Event :=
  let d1 := jSetKey s3data "Content-Length" (JVal.num size)
  let d2 := jSetKey d1 "Content-MD5" (JVal.str b64md5)
  let pe := stream_multipart boundary d2 [("file", basename, fd)]
  Event.storePost s3url pe.2 pe.1

def stage_url (c : Binstar) (login package_name release basename : String) : String :=
  c.domain ++ "/stage/" ++ login ++ "/" ++ package_name ++ "/" ++ release ++
    "/" ++ basename

def commit_url (c : Binstar) (login package_name release basename : String) : String :=
  c.domain ++ "/commit/" ++ login ++ "/" ++ package_name ++ "/" ++ release ++
    "/" ++ basename

def download_url (c : Binstar) (login package_name release basename : String) : String :=
  c.domain ++ "/download/" ++ login ++ "/" ++ package_name ++ "/" ++ release ++
    "/" ++ basename

/-- The stage request of lines 370-378: POST of the distribution type,
description and attrs as JSON, sent through the session. -/
def stage_event (c : Binstar) (login package_name release basename : String)
    (distribution_type description : String) (attrs : Option JVal) : Event :=
  Event.stagePost (stage_url c login package_name release basename)
    (session_headers c)
    (JVal.obj [("distribution_type", JVal.str distribution_type),
               ("description", JVal.str description),
               ("attrs", attrs.getD (JVal.obj []))])

/-- The commit request of lines 407-410: POST of the dist_id as JSON,
sent through the session. -/
def commit_event (c : Binstar) (login package_name release basename : String)
    (dist_id : JVal) : Event :=
  Event.commitPost (commit_url c login package_name release basename)
    (session_headers c) (JVal.obj [("dist_id", dist_id)])

/-- `Binstar.upload` (lines 356-413).  The three HTTP responses the run
would receive are passed explicitly; the result is the trace of issued
requests and stream operations, the warnings emitted, and either the
parsed commit body or the raised error. -/
def upload (table : Nat → Option (String × String)) (H : Hasher)
    (boundary : String) (c : Binstar)
    (login package_name release basename : String) (fd : ByteStream)
    (distribution_type description : String)
    (md5 : Option String) (size : Option Nat) (attrs : Option JVal)
    (stageRes storeRes commitRes : HttpResponse) :
    List Event × List String × Except BErr JVal :=
  if (attrs.getD (JVal.obj [])).isObj = false then
    ([], [], .error (.typeError "argument attrs must be a dictionary"))
  else
    let ev0 := [stage_event c login package_name release basename
      distribution_type description attrs]
    let w1 := (check_response table [200] stageRes).1
    match (check_response table [200] stageRes).2 with
    | .error e => (ev0, w1, .error e)
    | .ok _ =>
      match stageRes.body with
      | none => (ev0, w1, .error (.valueError "stage response body is not json"))
      | some (JVal.obj stageObj) =>
        (match jGet stageObj "s3_url" with
         | none => (ev0, w1, .error (.keyError "s3_url"))
         | some s3url =>
           (match jGet stageObj "s3form_data" with
            | none => (ev0, w1, .error (.keyError "s3form_data"))
            | some (JVal.obj s3data) =>
              (match digest_step H md5 size fd with
               | .error e => (ev0, w1, .error e)
               | .ok (evH, b64opt, sz, fd2) =>
                 match b64opt with
                 | none => (ev0 ++ evH, w1,
                     .error (.nameError "local variable b64md5 referenced before assignment"))
                 | some b64md5 =>
                   let evS := store_request boundary s3url s3data basename fd2 sz b64md5
                   if storeRes.status_code ≠ 201 then
                     (ev0 ++ evH ++ [evS], w1,
                      .error (.binstarError (JVal.str "Error uploading to s3")
                        storeRes.status_code))
                   else
                     match jGet stageObj "dist_id" with
                     | none => (ev0 ++ evH ++ [evS], w1, .error (.keyError "dist_id"))
                     | some dist_id =>
                       let evC := commit_event c login package_name release basename dist_id
                       let w2 := (check_response table [200] commitRes).1
                       match (check_response table [200] commitRes).2 with
                       | .error e =>
                           (ev0 ++ evH ++ [evS, evC], w1 ++ w2, .error e)
                       | .ok _ =>
                         match commitRes.body with
                         | none => (ev0 ++ evH ++ [evS, evC], w1 ++ w2,
                             .error (.valueError "commit response body is not json"))
                         | some m => (ev0 ++ evH ++ [evS, evC], w1 ++ w2, .ok m))
            | some _ => (ev0, w1,
                .error (.typeError "s3form_data value does not support item assignment"))))
      | some _ => (ev0, w1, .error (.typeError "stage response json is not subscriptable"))

/-- Lines 341-344 of `Binstar.download`: the validator headers of the
primary request — the known digest as ETag when one was supplied. -/
def etag_headers : Option String → List (String × String)
  | some m => [("ETag", m)]
  | none => []

/-- `Binstar.download` (lines 326-353).  Returns the trace, the warnings,
and either `none` (304: not modified), the second streaming response
(302), or the raised error. -/
def download (table : Nat → Option (String × String)) (c : Binstar)
    (login package_name release basename : String) (md5 : Option String)
    (primaryRes redirectRes : HttpResponse) :
    List Event × List String × Except BErr (Option HttpResponse) :=
  let ev0 := [Event.primaryGet (download_url c login package_name release basename)
    (session_headers c ++ etag_headers md5) false]
  let w := (check_response table [302, 304] primaryRes).1
  match (check_response table [302, 304] primaryRes).2 with
  | .error e => (ev0, w, .error e)
  | .ok _ =>
    if primaryRes.status_code = 304 then (ev0, w, .ok none)
    else if primaryRes.status_code = 302 then
      match primaryRes.headers.lookup "location" with
      | none => (ev0, w, .error (.keyError "location"))
      | some loc => (ev0 ++ [Event.redirectGet loc []], w, .ok (some redirectRes))
    else (ev0, w, .ok none)

/-! ### Event predicates -/

def isStorePost : Event → Bool
  | .storePost _ _ _ => true
  | _ => false

def isCommitPost : Event → Bool
  | .commitPost _ _ _ => true
  | _ => false

def isStreamRead : Event → Bool
  | .streamRead _ => true
  | _ => false

def isSeekEvent : Event → Bool
  | .seekEnd => true
  | .seekTo _ => true
  | _ => false

def isRedirectGet : Event → Bool
  | .redirectGet _ _ => true
  | _ => false

/-- Does a header list carry one of the authenticated-session headers? -/
def hasSessionHeader (hs : List (String × String)) : Bool :=
  hs.any (fun kv => kv.1 == "Authorization" || kv.1 == "x-binstar-api-version")

/-- An external request (store POST or redirect-following GET) carrying a
session header: such an event would leak the token or the client version
to the storage backend. -/
def externalWithSession : Event → Bool
  | .storePost _ hs _ => hasSessionHeader hs
  | .redirectGet _ hs => hasSessionHeader hs
  | _ => false

/-! ### Basic lemmas about the response checker and the digest step -/

theorem check_response_snd (table : Nat → Option (String × String))
    (allowed : List Nat) (res : HttpResponse) :
    (check_response table allowed res).2 =
      if allowed.contains res.status_code then Except.ok ()
      else Except.error (classify_body table res.status_code res.body) := by
  simp only [check_response]
  split <;> rfl

theorem check_response_fst (table : Nat → Option (String × String))
    (allowed : List Nat) (res : HttpResponse) :
    (check_response table allowed res).1 =
      if verLt (pv __version__)
          (pv (headerGet res.headers "x-binstar-api-version" "0.2.1")) then
        [warn_msg (headerGet res.headers "x-binstar-api-version" "0.2.1")]
      else [] := by
  simp only [check_response]
  split <;> rfl

theorem check_response_ok_status (table : Nat → Option (String × String))
    (allowed : List Nat) (res : HttpResponse) (u : Unit)
    (h : (check_response table allowed res).2 = Except.ok u) :
    allowed.contains res.status_code = true := by
  rw [check_response_snd] at h
  cases hb : allowed.contains res.status_code
  · rw [hb] at h
    simp at h
  · rfl

theorem check_response_fails (table : Nat → Option (String × String))
    (allowed : List Nat) (res : HttpResponse)
    (h : allowed.contains res.status_code = false) :
    (check_response table allowed res).2 =
      Except.error (classify_body table res.status_code res.body) := by
  rw [check_response_snd, if_neg]
  intro hc
  rw [h] at hc
  exact absurd hc (by simp)

theorem digest_step_no_md5 (H : Hasher) (size : Option Nat) (fd : ByteStream) :
    digest_step H none size fd =
      .ok ([Event.streamRead (fd.content.drop fd.pos).length],
        some (H.b64 (fd.content.drop fd.pos)),
        size.getD (fd.content.drop fd.pos).length,
        { fd with pos := fd.content.length }) := rfl

theorem digest_step_fast_path (H : Hasher) (m : String) (n : Nat) (fd : ByteStream) :
    digest_step H (some m) (some n) fd = .ok ([], none, n, fd) := rfl

theorem digest_step_derive_size (H : Hasher) (m : String) (fd : ByteStream) :
    digest_step H (some m) none fd =
      if fd.seekable then
        .ok ([Event.seekEnd, Event.seekTo fd.pos], none,
          fd.content.length - fd.pos, fd)
      else .error .unsupportedStream := by
  obtain ⟨cont, pos, sk⟩ := fd
  by_cases h : sk <;>
    simp [digest_step, ByteStream.seek_end, ByteStream.seek_to, h]

theorem digest_step_events (H : Hasher) (md5 : Option String) (size : Option Nat)
    (fd : ByteStream) (evH : List Event) (b : Option String) (sz : Nat)
    (fd2 : ByteStream) (h : digest_step H md5 size fd = .ok (evH, b, sz, fd2)) :
    evH = [Event.streamRead (fd.content.drop fd.pos).length] ∨ evH = []
      ∨ evH = [Event.seekEnd, Event.seekTo fd.pos] := by
  rcases md5 with _ | m
  · rw [digest_step_no_md5] at h
    simp only [Except.ok.injEq, Prod.mk.injEq] at h
    exact Or.inl h.1.symm
  · rcases size with _ | n
    · rw [digest_step_derive_size] at h
      by_cases hs : fd.seekable
      · rw [if_pos hs] at h
        simp only [Except.ok.injEq, Prod.mk.injEq] at h
        exact Or.inr (Or.inr h.1.symm)
      · rw [if_neg hs] at h
        exact absurd h (by simp)
    · rw [digest_step_fast_path] at h
      simp only [Except.ok.injEq, Prod.mk.injEq] at h
      exact Or.inr (Or.inl h.1.symm)

theorem digest_step_some_md5_no_b64 (H : Hasher) (m : String) (size : Option Nat)
    (fd : ByteStream) (evH : List Event) (b : Option String) (sz : Nat)
    (fd2 : ByteStream) (h : digest_step H (some m) size fd = .ok (evH, b, sz, fd2)) :
    b = none := by
  rcases size with _ | n
  · rw [digest_step_derive_size] at h
    by_cases hs : fd.seekable
    · rw [if_pos hs] at h
      simp only [Except.ok.injEq, Prod.mk.injEq] at h
      exact h.2.1.symm
    · rw [if_neg hs] at h
      exact absurd h (by simp)
  · rw [digest_step_fast_path] at h
    simp only [Except.ok.injEq, Prod.mk.injEq] at h
    exact h.2.1.symm

theorem store_request_isStorePost (b : String) (u : JVal)
    (d : List (String × JVal)) (bn : String) (fd : ByteStream) (sz : Nat)
    (m : String) : isStorePost (store_request b u d bn fd sz m) = true := rfl

theorem store_request_not_commit (b : String) (u : JVal)
    (d : List (String × JVal)) (bn : String) (fd : ByteStream) (sz : Nat)
    (m : String) : isCommitPost (store_request b u d bn fd sz m) = false := rfl

theorem store_request_no_session (b : String) (u : JVal)
    (d : List (String × JVal)) (bn : String) (fd : ByteStream) (sz : Nat)
    (m : String) : externalWithSession (store_request b u d bn fd sz m) = false := rfl

/-- Branch enumeration for `upload`: every run has one of five shapes —
attrs rejected before any request; a failure with only the stage request
issued; the unbound-b64md5 failure right after the digest step; the
store-phase failure; or a run whose store response was 201. -/
theorem upload_shape (table : Nat → Option (String × String)) (H : Hasher)
    (boundary : String) (c : Binstar)
    (login package_name release basename : String) (fd : ByteStream)
    (dt ds : String) (md5 : Option String) (size : Option Nat)
    (attrs : Option JVal) (stageRes storeRes commitRes : HttpResponse)
    (r : List Event × List String × Except BErr JVal)
    (hr : upload table H boundary c login package_name release basename fd
      dt ds md5 size attrs stageRes storeRes commitRes = r) :
    (∃ msg, r = ([], [], Except.error (BErr.typeError msg)))
    ∨ (∃ e, r = ([stage_event c login package_name release basename dt ds attrs],
        (check_response table [200] stageRes).1, Except.error e))
    ∨ ((check_response table [200] stageRes).2 = Except.ok () ∧
        ∃ evH sz fd2, digest_step H md5 size fd = Except.ok (evH, none, sz, fd2) ∧
        ∃ msg, r = ([stage_event c login package_name release basename dt ds attrs]
            ++ evH,
          (check_response table [200] stageRes).1,
          Except.error (BErr.nameError msg)))
    ∨ ((check_response table [200] stageRes).2 = Except.ok () ∧
        storeRes.status_code ≠ 201 ∧
        ∃ evH b64 sz fd2 s3url s3data,
          digest_step H md5 size fd = Except.ok (evH, some b64, sz, fd2) ∧
          r = ([stage_event c login package_name release basename dt ds attrs]
              ++ evH
              ++ [store_request boundary s3url s3data basename fd2 sz b64],
            (check_response table [200] stageRes).1,
            Except.error (BErr.binstarError (JVal.str "Error uploading to s3")
              storeRes.status_code)))
    ∨ ((check_response table [200] stageRes).2 = Except.ok () ∧
        storeRes.status_code = 201 ∧
        ∃ evH b64 sz fd2 s3url s3data,
          digest_step H md5 size fd = Except.ok (evH, some b64, sz, fd2) ∧
          (r.1 = [stage_event c login package_name release basename dt ds attrs]
              ++ evH
              ++ [store_request boundary s3url s3data basename fd2 sz b64]
           ∨ ∃ dist_id,
              r.1 = [stage_event c login package_name release basename dt ds attrs]
                ++ evH
                ++ [store_request boundary s3url s3data basename fd2 sz b64,
                    commit_event c login package_name release basename dist_id])) := by
  subst hr
  simp only [upload]
  by_cases hA : (attrs.getD (JVal.obj [])).isObj = false
  · rw [if_pos hA]
    exact Or.inl ⟨_, rfl⟩
  · rw [if_neg hA]
    split
    · exact Or.inr (Or.inl ⟨_, rfl⟩)
    · rename_i u hc
      split
      · exact Or.inr (Or.inl ⟨_, rfl⟩)
      · rename_i stageObj hb
        split
        · exact Or.inr (Or.inl ⟨_, rfl⟩)
        · rename_i s3url hu
          split
          · exact Or.inr (Or.inl ⟨_, rfl⟩)
          · rename_i s3data hf
            split
            · exact Or.inr (Or.inl ⟨_, rfl⟩)
            · rename_i evH b64opt sz fd2 hd
              split
              · exact Or.inr (Or.inr (Or.inl ⟨hc, _, _, _, hd, _, rfl⟩))
              · rename_i b64
                split
                · rename_i hne
                  exact Or.inr (Or.inr (Or.inr (Or.inl
                    ⟨hc, hne, _, _, _, _, _, _, hd, rfl⟩)))
                · rename_i hne
                  have h201 : storeRes.status_code = 201 := not_not.mp hne
                  split
                  · exact Or.inr (Or.inr (Or.inr (Or.inr
                      ⟨hc, h201, _, _, _, _, _, _, hd, Or.inl rfl⟩)))
                  · rename_i dist_id hdi
                    split
                    · exact Or.inr (Or.inr (Or.inr (Or.inr
                        ⟨hc, h201, _, _, _, _, _, _, hd, Or.inr ⟨dist_id, rfl⟩⟩)))
                    · split
                      · exact Or.inr (Or.inr (Or.inr (Or.inr
                          ⟨hc, h201, _, _, _, _, _, _, hd, Or.inr ⟨dist_id, rfl⟩⟩)))
                      · exact Or.inr (Or.inr (Or.inr (Or.inr
                          ⟨hc, h201, _, _, _, _, _, _, hd, Or.inr ⟨dist_id, rfl⟩⟩)))
          · exact Or.inr (Or.inl ⟨_, rfl⟩)
      · exact Or.inr (Or.inl ⟨_, rfl⟩)

/-! ### Small evaluation lemmas for events -/

theorem stage_event_not_store (c : Binstar) (a b d e f g : String)
    (at_ : Option JVal) : isStorePost (stage_event c a b d e f g at_) = false := rfl

theorem stage_event_not_commit (c : Binstar) (a b d e f g : String)
    (at_ : Option JVal) : isCommitPost (stage_event c a b d e f g at_) = false := rfl

theorem stage_event_not_read (c : Binstar) (a b d e f g : String)
    (at_ : Option JVal) : isStreamRead (stage_event c a b d e f g at_) = false := rfl

theorem stage_event_not_seek (c : Binstar) (a b d e f g : String)
    (at_ : Option JVal) : isSeekEvent (stage_event c a b d e f g at_) = false := rfl

theorem commit_event_is_commit (c : Binstar) (a b d e : String) (v : JVal) :
    isCommitPost (commit_event c a b d e v) = true := rfl

theorem commit_event_not_store (c : Binstar) (a b d e : String) (v : JVal) :
    isStorePost (commit_event c a b d e v) = false := rfl

theorem store_request_not_read (b : String) (u : JVal) (d : List (String × JVal))
    (bn : String) (fd : ByteStream) (sz : Nat) (m : String) :
    isStreamRead (store_request b u d bn fd sz m) = false := rfl

theorem store_request_not_seek (b : String) (u : JVal) (d : List (String × JVal))
    (bn : String) (fd : ByteStream) (sz : Nat) (m : String) :
    isSeekEvent (store_request b u d bn fd sz m) = false := rfl

/-- The digest-step events are stream reads and seeks only: they are
invisible to the store/commit/session filters. -/
theorem digest_events_filter (H : Hasher) (md5 : Option String)
    (size : Option Nat) (fd : ByteStream) (evH : List Event) (b : Option String)
    (sz : Nat) (fd2 : ByteStream)
    (h : digest_step H md5 size fd = Except.ok (evH, b, sz, fd2)) :
    evH.filter isStorePost = [] ∧ evH.filter isCommitPost = []
      ∧ evH.filter externalWithSession = [] := by
  rcases digest_step_events H md5 size fd evH b sz fd2 h with h1 | h1 | h1 <;>
    subst h1 <;> exact ⟨rfl, rfl, rfl⟩

/-- The typed error classes of the taxonomy: failures carrying the HTTP
status that raised them. -/
def BErr.classified : BErr → Bool
  | .unauthorized _ _ => true
  | .notFound _ _ => true
  | .conflict _ _ => true
  | .binstarError _ _ => true
  | _ => false

theorem mk_err_classified (code : Nat) (msg : JVal) :
    BErr.classified (mk_err code msg) = true := by
  unfold mk_err
  split
  · rfl
  · split
    · rfl
    · split <;> rfl

theorem classify_body_classified (table : Nat → Option (String × String))
    (code : Nat) (body : Option JVal)
    (h : body = none ∨ ∃ kvs, body = some (JVal.obj kvs)) :
    BErr.classified (classify_body table code body) = true := by
  rcases h with h | ⟨kvs, h⟩ <;> subst h
  · exact mk_err_classified code _
  · simp only [classify_body]
    cases kvs.lookup "error" with
    | none => exact mk_err_classified code _
    | some v => exact mk_err_classified code v

/-! ### Concrete fixtures -/

def table0 : Nat → Option (String × String) := fun _ => none

def hasher0 : Hasher :=
  ⟨fun bs => "hex" ++ toString bs.length, fun bs => "b64" ++ toString bs.length⟩

def client0 : Binstar := ⟨some "SECRET", "https://api.binstar.org"⟩

def fd0 : ByteStream := ⟨[10, 20, 30], 0, true⟩

def stage200 : HttpResponse :=
  ⟨200, [], some (JVal.obj [("s3_url", JVal.str "https://s3.amazonaws.com/b"),
    ("s3form_data", JVal.obj [("key", JVal.str "k1")]),
    ("dist_id", JVal.str "dist1")]), ""⟩

def store201 : HttpResponse := ⟨201, [], none, ""⟩

def store500 : HttpResponse := ⟨500, [], none, ""⟩

def commit200 : HttpResponse :=
  ⟨200, [], some (JVal.obj [("basename", JVal.str "f.tar")]), ""⟩

/-- Branch enumeration for `download`: check failure; 304; 302 without a
location header; 302 with one; or the unreachable fall-through arm. -/
theorem download_shape (table : Nat → Option (String × String)) (c : Binstar)
    (login package_name release basename : String) (md5 : Option String)
    (primaryRes redirectRes : HttpResponse)
    (r : List Event × List String × Except BErr (Option HttpResponse))
    (hr : download table c login package_name release basename md5
      primaryRes redirectRes = r) :
    (∃ e, (check_response table [302, 304] primaryRes).2 = Except.error e ∧
      r = ([Event.primaryGet (download_url c login package_name release basename)
          (session_headers c ++ etag_headers md5) false],
        (check_response table [302, 304] primaryRes).1, Except.error e))
    ∨ (primaryRes.status_code = 304 ∧
        r = ([Event.primaryGet (download_url c login package_name release basename)
            (session_headers c ++ etag_headers md5) false],
          (check_response table [302, 304] primaryRes).1, Except.ok none))
    ∨ (primaryRes.status_code ≠ 304 ∧ primaryRes.status_code = 302 ∧
        primaryRes.headers.lookup "location" = none ∧
        r = ([Event.primaryGet (download_url c login package_name release basename)
            (session_headers c ++ etag_headers md5) false],
          (check_response table [302, 304] primaryRes).1,
          Except.error (BErr.keyError "location")))
    ∨ (∃ loc, primaryRes.status_code ≠ 304 ∧ primaryRes.status_code = 302 ∧
        primaryRes.headers.lookup "location" = some loc ∧
        r = ([Event.primaryGet (download_url c login package_name release basename)
            (session_headers c ++ etag_headers md5) false,
            Event.redirectGet loc []],
          (check_response table [302, 304] primaryRes).1,
          Except.ok (some redirectRes)))
    ∨ ((check_response table [302, 304] primaryRes).2 = Except.ok () ∧
        primaryRes.status_code ≠ 304 ∧ primaryRes.status_code ≠ 302 ∧
        r = ([Event.primaryGet (download_url c login package_name release basename)
            (session_headers c ++ etag_headers md5) false],
          (check_response table [302, 304] primaryRes).1, Except.ok none)) := by
  subst hr
  simp only [download]
  split
  · exact Or.inl ⟨_, by assumption, rfl⟩
  · rename_i u hc
    by_cases h304 : primaryRes.status_code = 304
    · rw [if_pos h304]
      exact Or.inr (Or.inl ⟨h304, rfl⟩)
    · rw [if_neg h304]
      by_cases h302 : primaryRes.status_code = 302
      · rw [if_pos h302]
        cases hl : primaryRes.headers.lookup "location" with
        | none => exact Or.inr (Or.inr (Or.inl ⟨h304, h302, rfl, rfl⟩))
        | some loc =>
          exact Or.inr (Or.inr (Or.inr (Or.inl ⟨loc, h304, h302, rfl, rfl⟩)))
      · rw [if_neg h302]
        exact Or.inr (Or.inr (Or.inr (Or.inr ⟨hc, h304, h302, rfl⟩)))

/-! ### The claims -/

/-- C1: the claim states that a caller-supplied digest is carried as the
Content-MD5 text part of the store request and that the upload proceeds
to the store phase without recomputing the digest.  In the code the
local `b64md5` is assigned only on the no-digest path, so a supplied
digest makes line 394 raise an unbound-local NameError right after
staging: the store request is never issued and the supplied digest is
never used.  This theorem evaluates the model at such an input. -/
theorem C1_supplied_md5_never_reaches_store :
    (upload table0 hasher0 "BOUND" client0 "u" "pkg" "1.0" "f.tar" fd0
        "conda" "" (some "d41d8cd98f00b204e9800998ecf8427e") (some 3) none
        stage200 store201 commit200).2.2 =
      Except.error
        (BErr.nameError "local variable b64md5 referenced before assignment")
    ∧ (upload table0 hasher0 "BOUND" client0 "u" "pkg" "1.0" "f.tar" fd0
        "conda" "" (some "d41d8cd98f00b204e9800998ecf8427e") (some 3) none
        stage200 store201 commit200).1.filter isStorePost = [] :=
  ⟨rfl, rfl⟩

/-- C2: a store-phase response with a status other than 201 makes upload
raise BinstarError carrying that status code, the commit endpoint is
never contacted, and the store request was issued exactly once (the
StagingGrant is never reused). -/
theorem C2_store_failure_terminal (table : Nat → Option (String × String))
    (H : Hasher) (boundary : String) (c : Binstar)
    (login package_name release basename : String) (fd : ByteStream)
    (dt ds : String) (md5 : Option String) (size : Option Nat)
    (attrs : Option JVal) (stageRes storeRes commitRes : HttpResponse)
    (h201 : storeRes.status_code ≠ 201)
    (hreach : (upload table H boundary c login package_name release basename
        fd dt ds md5 size attrs stageRes storeRes commitRes).1.filter
        isStorePost ≠ []) :
    (upload table H boundary c login package_name release basename
        fd dt ds md5 size attrs stageRes storeRes commitRes).2.2 =
      Except.error (BErr.binstarError (JVal.str "Error uploading to s3")
        storeRes.status_code)
    ∧ (upload table H boundary c login package_name release basename
        fd dt ds md5 size attrs stageRes storeRes commitRes).1.filter
        isCommitPost = []
    ∧ ((upload table H boundary c login package_name release basename
        fd dt ds md5 size attrs stageRes storeRes commitRes).1.filter
        isStorePost).length = 1 := by
  have hs := upload_shape table H boundary c login package_name release basename
    fd dt ds md5 size attrs stageRes storeRes commitRes _ rfl
  rcases hs with ⟨msg, hEq⟩ | ⟨e, hEq⟩ | ⟨hc, evH, sz, fd2, hd, msg, hEq⟩
    | ⟨hc, hne, evH, b64, sz, fd2, s3url, s3data, hd, hEq⟩
    | ⟨hc, heq201, _⟩
  · rw [hEq] at hreach
    exact absurd rfl hreach
  · rw [hEq] at hreach
    exact absurd rfl hreach
  · rw [hEq] at hreach
    obtain ⟨hfS, _, _⟩ := digest_events_filter H md5 size fd evH none sz fd2 hd
    refine absurd ?_ hreach
    simp [List.filter_append, hfS, stage_event_not_store]
  · rw [hEq]
    obtain ⟨hfS, hfC, _⟩ :=
      digest_events_filter H md5 size fd evH (some b64) sz fd2 hd
    refine ⟨rfl, ?_, ?_⟩
    · simp [List.filter_append, hfC, stage_event_not_commit,
        store_request_not_commit]
    · simp [List.filter_append, hfS, stage_event_not_store,
        store_request_isStorePost]
  · exact absurd heq201 h201

/-- C2, witnessed at a concrete run whose store response is a 500. -/
theorem C2_store_failure_terminal_witness :
    (upload table0 hasher0 "BOUND" client0 "u" "pkg" "1.0" "f.tar" fd0
        "conda" "" none none none stage200 store500 commit200).2.2 =
      Except.error (BErr.binstarError (JVal.str "Error uploading to s3") 500)
    ∧ (upload table0 hasher0 "BOUND" client0 "u" "pkg" "1.0" "f.tar" fd0
        "conda" "" none none none stage200 store500 commit200).1.filter
        isCommitPost = []
    ∧ ((upload table0 hasher0 "BOUND" client0 "u" "pkg" "1.0" "f.tar" fd0
        "conda" "" none none none stage200 store500 commit200).1.filter
        isStorePost).length = 1 :=
  C2_store_failure_terminal table0 hasher0 "BOUND" client0 "u" "pkg" "1.0"
    "f.tar" fd0 "conda" "" none none none stage200 store500 commit200
    (by decide) (List.cons_ne_nil _ _)

theorem contains_200_iff (s : Nat) :
    (([200] : List Nat).contains s = true) ↔ s = 200 := by
  simp [List.contains]

/-- C5: when no digest is supplied the stream is hashed only after the
stage response has been received and accepted (status 200): a non-2xx
stage response makes upload raise before any byte of the stream is read,
and a stream read can occur in a trace only when the stage status was
exactly 200. -/
theorem C5_hash_only_after_stage_accepted
    (table : Nat → Option (String × String)) (H : Hasher) (boundary : String)
    (c : Binstar) (login package_name release basename : String)
    (fd : ByteStream) (dt ds : String) (size : Option Nat) (attrs : Option JVal)
    (stageRes storeRes commitRes : HttpResponse) :
    (¬ (200 ≤ stageRes.status_code ∧ stageRes.status_code < 300) →
      (∃ e, (upload table H boundary c login package_name release basename fd
          dt ds none size attrs stageRes storeRes commitRes).2.2 =
        Except.error e)
      ∧ (upload table H boundary c login package_name release basename fd
          dt ds none size attrs stageRes storeRes commitRes).1.filter
          isStreamRead = [])
    ∧ (∀ n, Event.streamRead n ∈ (upload table H boundary c login package_name
        release basename fd dt ds none size attrs stageRes storeRes
        commitRes).1 → stageRes.status_code = 200) := by
  have hs := upload_shape table H boundary c login package_name release
    basename fd dt ds none size attrs stageRes storeRes commitRes _ rfl
  constructor
  · intro h2xx
    have hne : stageRes.status_code ≠ 200 := by omega
    have hcontains : ([200] : List Nat).contains stageRes.status_code = false := by
      cases hcs : ([200] : List Nat).contains stageRes.status_code
      · rfl
      · exact absurd ((contains_200_iff _).mp hcs) hne
    have hfail := check_response_fails table [200] stageRes hcontains
    rcases hs with ⟨msg, hEq⟩ | ⟨e, hEq⟩ | ⟨hc, evH, sz, fd2, hd, msg, hEq⟩
      | ⟨hc, hne2, evH, b64, sz, fd2, s3url, s3data, hd, hEq⟩
      | ⟨hc, h201, evH, b64, sz, fd2, s3url, s3data, hd, hTr⟩
    · exact ⟨⟨_, by rw [hEq]⟩, by rw [hEq]; rfl⟩
    · exact ⟨⟨e, by rw [hEq]⟩, by rw [hEq]; rfl⟩
    · rw [hfail] at hc
      exact absurd hc (by simp)
    · rw [hfail] at hc
      exact absurd hc (by simp)
    · rw [hfail] at hc
      exact absurd hc (by simp)
  · intro n hn
    rcases hs with ⟨msg, hEq⟩ | ⟨e, hEq⟩ | ⟨hc, evH, sz, fd2, hd, msg, hEq⟩
      | ⟨hc, hne2, evH, b64, sz, fd2, s3url, s3data, hd, hEq⟩
      | ⟨hc, h201, evH, b64, sz, fd2, s3url, s3data, hd, hTr⟩
    · rw [hEq] at hn
      simp at hn
    · rw [hEq] at hn
      simp only [List.mem_singleton] at hn
      exact absurd hn (by simp [stage_event])
    · exact (contains_200_iff _).mp (check_response_ok_status _ _ _ _ hc)
    · exact (contains_200_iff _).mp (check_response_ok_status _ _ _ _ hc)
    · exact (contains_200_iff _).mp (check_response_ok_status _ _ _ _ hc)

/-- C5, witnessed at a stage response with status 500 (no byte read, run
raises) and at an accepted run whose trace contains a stream read. -/
theorem C5_hash_only_after_stage_accepted_witness :
    ((upload table0 hasher0 "BOUND" client0 "u" "pkg" "1.0" "f.tar" fd0
        "conda" "" none none none ⟨500, [], none, ""⟩ store201
        commit200).1.filter isStreamRead = [])
    ∧ (∃ e, (upload table0 hasher0 "BOUND" client0 "u" "pkg" "1.0" "f.tar" fd0
        "conda" "" none none none ⟨500, [], none, ""⟩ store201
        commit200).2.2 = Except.error e)
    ∧ stage200.status_code = 200 := by
  have h1 := (C5_hash_only_after_stage_accepted table0 hasher0 "BOUND" client0
    "u" "pkg" "1.0" "f.tar" fd0 "conda" "" none none ⟨500, [], none, ""⟩
    store201 commit200).1 (by decide)
  have h2 := (C5_hash_only_after_stage_accepted table0 hasher0 "BOUND" client0
    "u" "pkg" "1.0" "f.tar" fd0 "conda" "" none none stage200 store201
    commit200).2 3 (List.Mem.tail _ (List.Mem.head _))
  exact ⟨h1.2, h1.1, h2⟩

/-- C7: when both a precomputed digest and a size are supplied, the run
never reads a byte of the stream and never moves its position: no stream
read and no seek event occurs in the trace (both the hasher and the
seek-based sizing are skipped). -/
theorem C7_fast_path_stream_untouched
    (table : Nat → Option (String × String)) (H : Hasher) (boundary : String)
    (c : Binstar) (login package_name release basename : String)
    (fd : ByteStream) (dt ds : String) (m : String) (n : Nat)
    (attrs : Option JVal) (stageRes storeRes commitRes : HttpResponse) :
    (upload table H boundary c login package_name release basename fd dt ds
        (some m) (some n) attrs stageRes storeRes commitRes).1.filter
      isStreamRead = []
    ∧ (upload table H boundary c login package_name release basename fd dt ds
        (some m) (some n) attrs stageRes storeRes commitRes).1.filter
      isSeekEvent = [] := by
  have hs := upload_shape table H boundary c login package_name release
    basename fd dt ds (some m) (some n) attrs stageRes storeRes commitRes _ rfl
  rcases hs with ⟨msg, hEq⟩ | ⟨e, hEq⟩ | ⟨hc, evH, sz, fd2, hd, msg, hEq⟩
    | ⟨hc, hne, evH, b64, sz, fd2, s3url, s3data, hd, hEq⟩
    | ⟨hc, h201, evH, b64, sz, fd2, s3url, s3data, hd, hTr⟩
  · rw [hEq]
    exact ⟨rfl, rfl⟩
  · rw [hEq]
    exact ⟨rfl, rfl⟩
  · rw [digest_step_fast_path] at hd
    simp only [Except.ok.injEq, Prod.mk.injEq] at hd
    rw [hEq, ← hd.1]
    exact ⟨rfl, rfl⟩
  · rw [digest_step_fast_path] at hd
    simp at hd
  · rw [digest_step_fast_path] at hd
    simp at hd

/-- C6: with a supplied digest but no size, the size is derived by
recording the position, seeking to the end, taking the delta, and
seeking back (the stream is returned to its recorded position); on a
stream without random access this path fails with UnsupportedStream —
and upload surfaces exactly that failure. -/
theorem C6_size_derivation_requires_seek
    (table : Nat → Option (String × String)) (H : Hasher) (boundary : String)
    (c : Binstar) (login package_name release basename : String)
    (fd : ByteStream) (dt ds : String) (m : String)
    (stageRes storeRes commitRes : HttpResponse)
    (o : List (String × JVal)) (u : JVal) (d : List (String × JVal))
    (hst : stageRes.status_code = 200)
    (hb : stageRes.body = some (JVal.obj o))
    (hu : jGet o "s3_url" = some u)
    (hf : jGet o "s3form_data" = some (JVal.obj d)) :
    digest_step H (some m) none fd =
      (if fd.seekable then
        Except.ok ([Event.seekEnd, Event.seekTo fd.pos], none,
          fd.content.length - fd.pos, fd)
      else Except.error BErr.unsupportedStream)
    ∧ (fd.seekable = false →
      (upload table H boundary c login package_name release basename fd dt ds
          (some m) none none stageRes storeRes commitRes).2.2 =
        Except.error BErr.unsupportedStream) := by
  refine ⟨digest_step_derive_size H m fd, fun hseek => ?_⟩
  have hok : (check_response table [200] stageRes).2 = Except.ok () := by
    rw [check_response_snd, hst]
    rfl
  have hdig : digest_step H (some m) none fd =
      Except.error BErr.unsupportedStream := by
    rw [digest_step_derive_size, if_neg]
    simp [hseek]
  simp only [upload, Option.getD, JVal.isObj, hok, hb, hu, hf, hdig]
  rfl

def fdNoSeek : ByteStream := ⟨[1, 2], 0, false⟩

/-- C6, witnessed on a seekable stream (seek-end, seek-back, delta) and
on a non-seekable stream (UnsupportedStream, surfaced by upload). -/
theorem C6_size_derivation_requires_seek_witness :
    digest_step hasher0 (some "beef") none fd0 =
      Except.ok ([Event.seekEnd, Event.seekTo 0], none, 3, fd0)
    ∧ digest_step hasher0 (some "beef") none fdNoSeek =
      Except.error BErr.unsupportedStream
    ∧ (upload table0 hasher0 "BOUND" client0 "u" "pkg" "1.0" "f.tar" fdNoSeek
        "conda" "" (some "beef") none none stage200 store201 commit200).2.2 =
      Except.error BErr.unsupportedStream := by
  have hseekable := (C6_size_derivation_requires_seek table0 hasher0 "BOUND"
    client0 "u" "pkg" "1.0" "f.tar" fd0 "conda" "" "beef" stage200 store201
    commit200 _ _ _ rfl rfl rfl rfl).1
  have hnoseek := C6_size_derivation_requires_seek table0 hasher0 "BOUND"
    client0 "u" "pkg" "1.0" "f.tar" fdNoSeek "conda" "" "beef" stage200
    store201 commit200 _ _ _ rfl rfl rfl rfl
  exact ⟨hseekable.trans (by rfl), hnoseek.1.trans (by rfl), hnoseek.2 rfl⟩

theorem stage_event_no_session (c : Binstar) (a b d e f g : String)
    (at_ : Option JVal) : externalWithSession (stage_event c a b d e f g at_)
      = false := rfl

theorem commit_event_no_session (c : Binstar) (a b d e : String) (v : JVal) :
    externalWithSession (commit_event c a b d e v) = false := rfl

/-- The store requests of two uploads differing only in the client are
identical: nothing of the client (token, domain, session headers) enters
the store request. -/
theorem upload_store_requests_client_free
    (table : Nat → Option (String × String)) (H : Hasher) (boundary : String)
    (c1 c2 : Binstar) (login package_name release basename : String)
    (fd : ByteStream) (dt ds : String) (md5 : Option String)
    (size : Option Nat) (attrs : Option JVal)
    (stageRes storeRes commitRes : HttpResponse) :
    (upload table H boundary c1 login package_name release basename fd dt ds
        md5 size attrs stageRes storeRes commitRes).1.filter isStorePost =
    (upload table H boundary c2 login package_name release basename fd dt ds
        md5 size attrs stageRes storeRes commitRes).1.filter isStorePost := by
  simp only [upload]
  by_cases hA : (attrs.getD (JVal.obj [])).isObj = false
  · rw [if_pos hA, if_pos hA]
  · rw [if_neg hA, if_neg hA]
    cases hc : (check_response table [200] stageRes).2 with
    | error e => rfl
    | ok u =>
      dsimp only []
      cases hb : stageRes.body with
      | none => rfl
      | some bj =>
        rcases bj with _ | bv | nv | sv | av | stageObj
        · rfl
        · rfl
        · rfl
        · rfl
        · rfl
        · dsimp only []
          cases hu : jGet stageObj "s3_url" with
          | none => rfl
          | some s3url =>
            dsimp only []
            cases hf : jGet stageObj "s3form_data" with
            | none => rfl
            | some fv =>
              rcases fv with _ | bv | nv | sv | av | s3data
              · rfl
              · rfl
              · rfl
              · rfl
              · rfl
              · dsimp only []
                cases hd : digest_step H md5 size fd with
                | error e => rfl
                | ok tup =>
                  obtain ⟨evH, b64opt, sz, fd2⟩ := tup
                  dsimp only []
                  cases b64opt with
                  | none => rfl
                  | some b64 =>
                    dsimp only []
                    by_cases h201 : storeRes.status_code ≠ 201
                    · rw [if_pos h201, if_pos h201]
                      simp [List.filter_append, stage_event_not_store,
                        store_request_isStorePost]
                    · rw [if_neg h201, if_neg h201]
                      cases hdi : jGet stageObj "dist_id" with
                      | none => rfl
                      | some dist_id =>
                        dsimp only []
                        cases hcc : (check_response table [200] commitRes).2 with
                        | error e =>
                          simp [List.filter_append, stage_event_not_store,
                            store_request_isStorePost, commit_event_not_store]
                        | ok u2 =>
                          dsimp only []
                          cases commitRes.body with
                          | none =>
                            simp [List.filter_append, stage_event_not_store,
                              store_request_isStorePost, commit_event_not_store]
                          | some m =>
                            simp [List.filter_append, stage_event_not_store,
                              store_request_isStorePost, commit_event_not_store]

/-- No store request of any upload run carries a session header. -/
theorem upload_no_session_leak (table : Nat → Option (String × String))
    (H : Hasher) (boundary : String) (c : Binstar)
    (login package_name release basename : String) (fd : ByteStream)
    (dt ds : String) (md5 : Option String) (size : Option Nat)
    (attrs : Option JVal) (stageRes storeRes commitRes : HttpResponse) :
    (upload table H boundary c login package_name release basename fd dt ds
        md5 size attrs stageRes storeRes commitRes).1.filter
      externalWithSession = [] := by
  have hs := upload_shape table H boundary c login package_name release
    basename fd dt ds md5 size attrs stageRes storeRes commitRes _ rfl
  rcases hs with ⟨msg, hEq⟩ | ⟨e, hEq⟩ | ⟨hc, evH, sz, fd2, hd, msg, hEq⟩
    | ⟨hc, hne, evH, b64, sz, fd2, s3url, s3data, hd, hEq⟩
    | ⟨hc, h201, evH, b64, sz, fd2, s3url, s3data, hd, hTr⟩
  · rw [hEq]
    rfl
  · rw [hEq]
    rfl
  · rw [hEq]
    obtain ⟨_, _, hfE⟩ := digest_events_filter H md5 size fd evH none sz fd2 hd
    simp [List.filter_append, hfE, stage_event_no_session]
  · rw [hEq]
    obtain ⟨_, _, hfE⟩ :=
      digest_events_filter H md5 size fd evH (some b64) sz fd2 hd
    simp [List.filter_append, hfE, stage_event_no_session,
      store_request_no_session]
  · obtain ⟨_, _, hfE⟩ :=
      digest_events_filter H md5 size fd evH (some b64) sz fd2 hd
    rcases hTr with hT | ⟨dist_id, hT⟩ <;> rw [hT] <;>
      simp [List.filter_append, hfE, stage_event_no_session,
        store_request_no_session, commit_event_no_session]

/-- The redirect-following requests of two downloads differing only in
the client are identical. -/
theorem download_redirect_requests_client_free
    (table : Nat → Option (String × String)) (c1 c2 : Binstar)
    (login package_name release basename : String) (md5 : Option String)
    (primaryRes redirectRes : HttpResponse) :
    (download table c1 login package_name release basename md5 primaryRes
        redirectRes).1.filter isRedirectGet =
    (download table c2 login package_name release basename md5 primaryRes
        redirectRes).1.filter isRedirectGet := by
  simp only [download]
  cases hc : (check_response table [302, 304] primaryRes).2 with
  | error e => rfl
  | ok u =>
    dsimp only []
    by_cases h304 : primaryRes.status_code = 304
    · rw [if_pos h304, if_pos h304]
      rfl
    · rw [if_neg h304, if_neg h304]
      by_cases h302 : primaryRes.status_code = 302
      · rw [if_pos h302, if_pos h302]
        cases hl : primaryRes.headers.lookup "location" with
        | none => rfl
        | some loc => rfl
      · rw [if_neg h302, if_neg h302]
        rfl

/-- No redirect-following request of any download run carries a session
header (its header list is empty). -/
theorem download_no_session_leak (table : Nat → Option (String × String))
    (c : Binstar) (login package_name release basename : String)
    (md5 : Option String) (primaryRes redirectRes : HttpResponse) :
    (download table c login package_name release basename md5 primaryRes
        redirectRes).1.filter externalWithSession = [] := by
  have hs := download_shape table c login package_name release basename md5
    primaryRes redirectRes _ rfl
  rcases hs with ⟨e, hc, hEq⟩ | ⟨h304, hEq⟩ | ⟨hn304, h302, hl, hEq⟩
    | ⟨loc, hn304, h302, hl, hEq⟩ | ⟨hc, hn304, hn302, hEq⟩ <;> rw [hEq] <;> rfl

/-- C10: the store POST and the redirect-following GET are issued by the
bare requests module, outside the authenticated session: they carry
neither the Authorization token header nor the client version header,
and two clients differing only in their token produce identical store
requests and identical redirect requests. -/
theorem C10_external_requests_independent_of_token
    (table : Nat → Option (String × String)) (H : Hasher) (boundary : String)
    (t1 t2 : Option String) (dom : String)
    (login package_name release basename : String) (fd : ByteStream)
    (dt ds : String) (md5 : Option String) (size : Option Nat)
    (attrs : Option JVal) (stageRes storeRes commitRes : HttpResponse)
    (dmd5 : Option String) (primaryRes redirectRes : HttpResponse) :
    ((upload table H boundary ⟨t1, dom⟩ login package_name release basename fd
        dt ds md5 size attrs stageRes storeRes commitRes).1.filter isStorePost =
      (upload table H boundary ⟨t2, dom⟩ login package_name release basename fd
        dt ds md5 size attrs stageRes storeRes commitRes).1.filter isStorePost)
    ∧ (upload table H boundary ⟨t1, dom⟩ login package_name release basename fd
        dt ds md5 size attrs stageRes storeRes commitRes).1.filter
        externalWithSession = []
    ∧ ((download table ⟨t1, dom⟩ login package_name release basename dmd5
        primaryRes redirectRes).1.filter isRedirectGet =
      (download table ⟨t2, dom⟩ login package_name release basename dmd5
        primaryRes redirectRes).1.filter isRedirectGet)
    ∧ (download table ⟨t1, dom⟩ login package_name release basename dmd5
        primaryRes redirectRes).1.filter externalWithSession = [] :=
  ⟨upload_store_requests_client_free table H boundary ⟨t1, dom⟩ ⟨t2, dom⟩
      login package_name release basename fd dt ds md5 size attrs stageRes
      storeRes commitRes,
   upload_no_session_leak table H boundary ⟨t1, dom⟩ login package_name
      release basename fd dt ds md5 size attrs stageRes storeRes commitRes,
   download_redirect_requests_client_free table ⟨t1, dom⟩ ⟨t2, dom⟩ login
      package_name release basename dmd5 primaryRes redirectRes,
   download_no_session_leak table ⟨t1, dom⟩ login package_name release
      basename dmd5 primaryRes redirectRes⟩

/-- C9: the protocol-version comparison never raises (the check is a
total function), the warning is emitted exactly when the server version
is strictly newer than the client version, and the comparison has no
effect on processing: the result component of the response check does
not depend on the headers at all. -/
theorem C9_version_skew_warns_never_raises
    (table : Nat → Option (String × String)) (allowed : List Nat)
    (res : HttpResponse) (hs : List (String × String)) :
    (check_response table allowed
        { status_code := res.status_code, headers := hs, body := res.body,
          text := res.text }).2 = (check_response table allowed res).2
    ∧ (check_response table allowed res).1 =
      (if verLt (pv __version__)
          (pv (headerGet res.headers "x-binstar-api-version" "0.2.1")) then
        [warn_msg (headerGet res.headers "x-binstar-api-version" "0.2.1")]
      else []) :=
  ⟨by rw [check_response_snd, check_response_snd],
   check_response_fst table allowed res⟩

/-- C3 counterexample: at a disallowed status (here 200, claimed by C3 to
raise a classified typed failure) with a body parsing to non-object JSON,
download raises an untyped AttributeError that carries no status code. -/
theorem C3_counterexample_unclassified_attribute_error :
    (download table0 client0 "u" "pkg" "1.0" "f.tar" none
        ⟨200, [], some (JVal.arr []), ""⟩ ⟨200, [], none, ""⟩).2.2 =
      Except.error (BErr.attributeError "response JSON has no attribute get")
    ∧ BErr.classified (BErr.attributeError "response JSON has no attribute get")
      = false :=
  ⟨rfl, rfl⟩

theorem contains_302_304_iff (s : Nat) :
    (([302, 304] : List Nat).contains s = true) ↔ (s = 302 ∨ s = 304) := by
  simp [List.contains]

/-- C3 amended: the primary GET suppresses redirects and carries the
digest as ETag validator iff one was supplied; 304 returns the
NotModified outcome with no second request; 302 triggers exactly one
second GET to the location target with no headers at all, returning the
second response; any other status raises the classified typed failure —
provided the body is absent, unparseable, or a JSON object (a body
parsing to non-object JSON instead escapes as an untyped
AttributeError). -/
theorem C3_download_flow (table : Nat → Option (String × String))
    (c : Binstar) (login package_name release basename : String)
    (md5 : Option String) (primaryRes redirectRes : HttpResponse) :
    ((download table c login package_name release basename md5 primaryRes
        redirectRes).1.head? = some (Event.primaryGet
        (download_url c login package_name release basename)
        (session_headers c ++ etag_headers md5) false))
    ∧ (session_headers c ++ etag_headers md5).lookup "ETag" = md5
    ∧ (primaryRes.status_code = 304 →
        (download table c login package_name release basename md5 primaryRes
          redirectRes).2.2 = Except.ok none
        ∧ (download table c login package_name release basename md5 primaryRes
          redirectRes).1.filter isRedirectGet = [])
    ∧ (∀ loc, primaryRes.status_code = 302 →
        primaryRes.headers.lookup "location" = some loc →
        (download table c login package_name release basename md5 primaryRes
          redirectRes).1 = [Event.primaryGet
            (download_url c login package_name release basename)
            (session_headers c ++ etag_headers md5) false,
          Event.redirectGet loc []]
        ∧ (download table c login package_name release basename md5 primaryRes
          redirectRes).2.2 = Except.ok (some redirectRes))
    ∧ (primaryRes.status_code ≠ 302 → primaryRes.status_code ≠ 304 →
        (primaryRes.body = none ∨ ∃ kvs, primaryRes.body = some (JVal.obj kvs)) →
        (download table c login package_name release basename md5 primaryRes
          redirectRes).2.2 = Except.error (classify_body table
            primaryRes.status_code primaryRes.body)
        ∧ BErr.classified (classify_body table primaryRes.status_code
            primaryRes.body) = true) := by
  refine ⟨?_, ?_, ?_, ?_, ?_⟩
  · rcases download_shape table c login package_name release basename md5
        primaryRes redirectRes _ rfl with ⟨e, hc, hEq⟩ | ⟨h304, hEq⟩
      | ⟨hn304, h302, hl, hEq⟩ | ⟨loc, hn304, h302, hl, hEq⟩
      | ⟨hc, hn304, hn302, hEq⟩ <;> rw [hEq] <;> rfl
  · obtain ⟨tok, dom⟩ := c
    cases tok <;> cases md5 <;> rfl
  · intro h304
    rcases download_shape table c login package_name release basename md5
        primaryRes redirectRes _ rfl with ⟨e, hc, hEq⟩ | ⟨h304x, hEq⟩
      | ⟨hn304, h302, hl, hEq⟩ | ⟨loc, hn304, h302, hl, hEq⟩
      | ⟨hc, hn304, hn302, hEq⟩
    · rw [check_response_snd, h304] at hc
      exact absurd hc (by simp)
    · rw [hEq]
      exact ⟨rfl, rfl⟩
    · exact absurd h304 hn304
    · exact absurd h304 hn304
    · exact absurd h304 hn304
  · intro loc h302 hl
    rcases download_shape table c login package_name release basename md5
        primaryRes redirectRes _ rfl with ⟨e, hc, hEq⟩ | ⟨h304, hEq⟩
      | ⟨hn304, h302x, hln, hEq⟩ | ⟨loc2, hn304, h302x, hl2, hEq⟩
      | ⟨hc, hn304, hn302, hEq⟩
    · rw [check_response_snd, h302] at hc
      exact absurd hc (by simp)
    · rw [h302] at h304
      exact absurd h304 (by decide)
    · rw [hl] at hln
      exact absurd hln (by simp)
    · rw [hl] at hl2
      obtain rfl : loc2 = loc := by
        injection hl2 with h
        exact h.symm
      rw [hEq]
      exact ⟨rfl, rfl⟩
    · exact absurd h302 hn302
  · intro hn302 hn304 hbody
    have hcontains : ([302, 304] : List Nat).contains primaryRes.status_code
        = false := by
      cases hcs : ([302, 304] : List Nat).contains primaryRes.status_code
      · rfl
      · rcases (contains_302_304_iff _).mp hcs with h | h
        · exact absurd h hn302
        · exact absurd h hn304
    have hfail := check_response_fails table [302, 304] primaryRes hcontains
    refine ⟨?_, classify_body_classified table primaryRes.status_code
      primaryRes.body hbody⟩
    rcases download_shape table c login package_name release basename md5
        primaryRes redirectRes _ rfl with ⟨e, hc, hEq⟩ | ⟨h304, hEq⟩
      | ⟨hn304x, h302, hl, hEq⟩ | ⟨loc, hn304x, h302, hl, hEq⟩
      | ⟨hc, hn304x, hn302x, hEq⟩
    · rw [hfail] at hc
      obtain rfl : e = classify_body table primaryRes.status_code
          primaryRes.body := by
        injection hc with h
        exact h.symm
      rw [hEq]
    · exact absurd h304 hn304
    · exact absurd h302 hn302
    · exact absurd h302 hn302
    · rw [hfail] at hc
      exact absurd hc (by simp)

def dl302 : HttpResponse :=
  ⟨302, [("location", "https://d.example/x")], none, ""⟩

def dlBody : HttpResponse := ⟨200, [], none, "FILEBYTES"⟩

/-- C3, witnessed at a concrete 302 download with a supplied digest. -/
theorem C3_download_flow_witness :
    (download table0 client0 "u" "pkg" "1.0" "f.tar" (some "beef") dl302
        dlBody).1 = [Event.primaryGet
          "https://api.binstar.org/download/u/pkg/1.0/f.tar"
          (session_headers client0 ++ etag_headers (some "beef")) false,
        Event.redirectGet "https://d.example/x" []]
    ∧ (download table0 client0 "u" "pkg" "1.0" "f.tar" (some "beef") dl302
        dlBody).2.2 = Except.ok (some dlBody)
    ∧ (session_headers client0 ++ etag_headers (some "beef")).lookup "ETag"
      = some "beef" := by
  have h := C3_download_flow table0 client0 "u" "pkg" "1.0" "f.tar"
    (some "beef") dl302 dlBody
  have hc := h.2.2.2.1 "https://d.example/x" rfl rfl
  exact ⟨hc.1, hc.2, h.2.1⟩

/-- C4 counterexample: a commit response with status 201 — a 2xx — makes
upload raise: the commit check allows only status 200 (the default
allowed list), so metadata is never returned. -/
theorem C4_counterexample_commit_201_raises :
    (upload table0 hasher0 "BOUND" client0 "u" "pkg" "1.0" "f.tar" fd0 "conda"
        "" none none none stage200 store201
        ⟨201, [], some (JVal.obj [("a", JVal.str "b")]), ""⟩).2.2 =
      Except.error (BErr.binstarError
        (JVal.str "?: Undefined error (status code: 201)") 201) := rfl

/-- C4 amended: the commit phase succeeds only on status exactly 200,
returning the parsed response body; every other commit status — other
2xx codes included — raises the classified error. -/
theorem C4_commit_requires_exactly_200
    (table : Nat → Option (String × String)) (H : Hasher) (boundary : String)
    (c : Binstar) (login package_name release basename : String)
    (fd : ByteStream) (dt ds : String) (size : Option Nat)
    (stageRes storeRes commitRes : HttpResponse)
    (o : List (String × JVal)) (u di : JVal) (d : List (String × JVal))
    (hst : stageRes.status_code = 200)
    (hb : stageRes.body = some (JVal.obj o))
    (hu : jGet o "s3_url" = some u)
    (hf : jGet o "s3form_data" = some (JVal.obj d))
    (hdi : jGet o "dist_id" = some di)
    (hstore : storeRes.status_code = 201) :
    (∀ m, commitRes.status_code = 200 → commitRes.body = some m →
      (upload table H boundary c login package_name release basename fd dt ds
          none size none stageRes storeRes commitRes).2.2 = Except.ok m)
    ∧ (commitRes.status_code ≠ 200 →
      (upload table H boundary c login package_name release basename fd dt ds
          none size none stageRes storeRes commitRes).2.2 =
        Except.error (classify_body table commitRes.status_code
          commitRes.body)) := by
  have hok : (check_response table [200] stageRes).2 = Except.ok () := by
    rw [check_response_snd, hst]
    rfl
  have hdg := digest_step_no_md5 H size fd
  have hnot201 : ¬ storeRes.status_code ≠ 201 := by simp [hstore]
  constructor
  · intro m h200 hbm
    have hcok : (check_response table [200] commitRes).2 = Except.ok () := by
      rw [check_response_snd, h200]
      rfl
    simp only [upload, Option.getD, JVal.isObj, hok, hb, hu, hf, hdg, hdi,
      hcok, hbm]
    rw [if_neg hnot201]
    rfl
  · intro hne
    have hcontains : ([200] : List Nat).contains commitRes.status_code
        = false := by
      cases hcs : ([200] : List Nat).contains commitRes.status_code
      · rfl
      · exact absurd ((contains_200_iff _).mp hcs) hne
    have hcf := check_response_fails table [200] commitRes hcontains
    simp only [upload, Option.getD, JVal.isObj, hok, hb, hu, hf, hdg, hdi, hcf]
    rw [if_neg hnot201]
    rfl

/-- C4, witnessed at a 200 commit (success, metadata returned) and at a
204 commit (a 2xx that still raises). -/
theorem C4_commit_requires_exactly_200_witness :
    (upload table0 hasher0 "BOUND" client0 "u" "pkg" "1.0" "f.tar" fd0 "conda"
        "" none none none stage200 store201 commit200).2.2 =
      Except.ok (JVal.obj [("basename", JVal.str "f.tar")])
    ∧ (upload table0 hasher0 "BOUND" client0 "u" "pkg" "1.0" "f.tar" fd0
        "conda" "" none none none stage200 store201 ⟨204, [], none, ""⟩).2.2 =
      Except.error (BErr.binstarError
        (JVal.str "?: Undefined error (status code: 204)") 204) := by
  have h1 := (C4_commit_requires_exactly_200 table0 hasher0 "BOUND" client0
    "u" "pkg" "1.0" "f.tar" fd0 "conda" "" none stage200 store201 commit200
    _ _ _ _ rfl rfl rfl rfl rfl rfl).1
    (JVal.obj [("basename", JVal.str "f.tar")]) rfl rfl
  have h2 := (C4_commit_requires_exactly_200 table0 hasher0 "BOUND" client0
    "u" "pkg" "1.0" "f.tar" fd0 "conda" "" none stage200 store201
    ⟨204, [], none, ""⟩ _ _ _ _ rfl rfl rfl rfl rfl rfl).2 (by decide)
  exact ⟨h1, h2.trans (by rfl)⟩

/-- C8 counterexample: at status 500 with a body parsing to a JSON array,
`data.get` raises an untyped AttributeError — not a typed failure
determined by the status code and carrying it. -/
theorem C8_counterexample_array_body :
    (check_response table0 [200] ⟨500, [], some (JVal.arr []), ""⟩).2 =
      Except.error (BErr.attributeError "response JSON has no attribute get")
    ∧ BErr.classified
        (BErr.attributeError "response JSON has no attribute get") = false :=
  ⟨rfl, rfl⟩

/-- The classification exactly as the claim words it: the failure class
chosen solely by the status code — Unauthorized for 401, NotFound for
404, Conflict for 409, the generic error for any other status — carrying
the status code, with the message taken from the error field when the
body is a JSON object containing one, otherwise from the table. -/
def spec_error (table : Nat → Option (String × String)) (res : HttpResponse) :
    BErr :=
  let msg : JVal :=
    match res.body with
    | some (JVal.obj kvs) =>
        match kvs.lookup "error" with
        | some v => v
        | none => JVal.str (table_msg table res.status_code)
    | _ => JVal.str (table_msg table res.status_code)
  if res.status_code = 401 then BErr.unauthorized msg res.status_code
  else if res.status_code = 404 then BErr.notFound msg res.status_code
  else if res.status_code = 409 then BErr.conflict msg res.status_code
  else BErr.binstarError msg res.status_code

/-- C8 amended: for every response with a disallowed status whose body is
either not JSON or a JSON object, the raised failure is exactly the one
the claim describes (typed solely by the status code, message from the
error field or the table); the body restriction is forced by the
AttributeError counterexample. -/
theorem C8_error_classification (table : Nat → Option (String × String))
    (allowed : List Nat) (res : HttpResponse)
    (hnot : allowed.contains res.status_code = false)
    (hbody : res.body = none ∨ ∃ kvs, res.body = some (JVal.obj kvs)) :
    (check_response table allowed res).2 = Except.error (spec_error table res)
    ∧ BErr.classified (spec_error table res) = true := by
  have heq : classify_body table res.status_code res.body
      = spec_error table res := by
    rcases hbody with h | ⟨kvs, h⟩
    · simp [classify_body, spec_error, mk_err, h]
    · cases hlk : kvs.lookup "error" <;>
        simp [classify_body, spec_error, mk_err, h, hlk]
  refine ⟨(check_response_fails table allowed res hnot).trans
    (congrArg Except.error heq), ?_⟩
  rw [← heq]
  exact classify_body_classified table res.status_code res.body hbody

def resp404 : HttpResponse :=
  ⟨404, [], some (JVal.obj [("error", JVal.str "no such package")]), ""⟩

/-- C8, witnessed at a concrete 404 whose body carries an error field. -/
theorem C8_error_classification_witness :
    (check_response table0 [200] resp404).2 =
      Except.error (BErr.notFound (JVal.str "no such package") 404)
    ∧ BErr.classified (BErr.notFound (JVal.str "no such package") 404)
      = true := by
  have h := C8_error_classification table0 [200] resp404 rfl (Or.inr ⟨_, rfl⟩)
  exact ⟨h.1.trans (by rfl), rfl⟩
